import Mathlib

/-!
# Verification of the minifuture calculator

Shallow embedding of `src/mini.go` (package main). The program reads five
command-line flags (price, risk, stop, financeLevel, derivatePrice), all
Go `float64`, and prints six derived quantities. Go's `float64` arithmetic
is modelled here by exact rational arithmetic over `ℚ` (decimal literals
such as `8.34` become the exact rationals they denote). A quantity whose
computation divides by zero — which in Go yields a non-finite IEEE value
(`+Inf`, `-Inf` or `NaN`) printed as such, never an error — is modelled as
`none : Option ℚ`; when the denominator is nonzero the Go value is the
rounding of the exact rational modelled by `some`.

The spec additionally describes an instrument filter component that has no
code under `src/`; it is modelled separately from the spec's words below
(`instrumentFilter`).
-/

namespace Minifuture

/-- Output of one run of the calculator: the six printed quantities, in
print order (mini.go lines 24-40). Fields computed by an unguarded
division are `Option ℚ`: `none` models the non-finite IEEE value Go
produces on a zero denominator. -/
structure MiniOutput where
  numberOfStocks : Option ℚ
  takeProfit : ℚ
  paritet : ℚ
  miniStop : ℚ
  howMany : Option ℚ
  miniProfit : Option ℚ
deriving DecidableEq, Repr

/-- Go: `numberOfStocks := *risk / (*price - *stop)` (mini.go line 24). -/
def numberOfStocks (price risk stop : ℚ) : Option ℚ :=
  if price - stop = 0 then none else some (risk / (price - stop))

/-- Go: `takeProfit := *price + 2*(*price - *stop)` (mini.go line 27).
The reward:risk multiplier is the literal constant `2` in the source. -/
def takeProfit (price stop : ℚ) : ℚ :=
  price + 2 * (price - stop)

/-- Go: `paritet := (*price - *financeLevel) / 100 * 8.34` (mini.go
line 30), printed as "Mini> Leverage". The multiplier is the literal
constant `8.34 = 834/100` in the source. -/
def paritet (price financeLevel : ℚ) : ℚ :=
  (price - financeLevel) / 100 * (834 / 100)

/-- Go: `miniStop := (*stop - *financeLevel) / 100 * 8.34` (mini.go
line 33), printed as "Mini> Stop". -/
def miniStop (stop financeLevel : ℚ) : ℚ :=
  (stop - financeLevel) / 100 * (834 / 100)

/-- Go: `howMany := *risk / (*derivatePrice - miniStop)` (mini.go
line 36), printed as "Mini> How many can I buy". -/
def howMany (risk derivatePrice stop financeLevel : ℚ) : Option ℚ :=
  if derivatePrice - miniStop stop financeLevel = 0 then none
  else some (risk / (derivatePrice - miniStop stop financeLevel))

/-- Go: `miniProfit := (((takeProfit - *financeLevel) / 100 * 8.34) *
howMany) - (*derivatePrice * howMany)` (mini.go line 39), printed as
"Mini> Profit". Non-finite whenever `howMany` is (IEEE arithmetic on an
infinite or NaN operand never returns a finite value). -/
def miniProfit (price risk stop financeLevel derivatePrice : ℚ) : Option ℚ :=
  (howMany risk derivatePrice stop financeLevel).map
    (fun h => ((takeProfit price stop - financeLevel) / 100 * (834 / 100)) * h
      - derivatePrice * h)

/-- The whole of `main` (mini.go): the six values printed, as a function of
the five flag values. -/
def miniMain (price risk stop financeLevel derivatePrice : ℚ) : MiniOutput :=
  { numberOfStocks := numberOfStocks price risk stop
    takeProfit := takeProfit price stop
    paritet := paritet price financeLevel
    miniStop := miniStop stop financeLevel
    howMany := howMany risk derivatePrice stop financeLevel
    miniProfit := miniProfit price risk stop financeLevel derivatePrice }

/-- Direction of a trade plan or of an instrument (spec data model). -/
inductive Direction where
  | long
  | short
deriving DecidableEq, Repr

/-- A candidate mini-future instrument (spec data model, section 3). -/
structure Instrument where
  identifier : String
  side : Direction
  financeLevel : ℚ
  parityOrMultiplier : ℚ
  lastPrice : ℚ
deriving DecidableEq, Repr

/-- Modelled from the spec: the InstrumentFilter component (spec section
4.2) has no code under `src/` — the repository's only program is the
scratch calculator `mini.go`. Following the spec's words: an instrument is
kept iff its side matches the plan's direction and, for a Long plan, its
finance level is strictly below the stop price, for a Short plan strictly
above; instruments failing either rule are dropped silently. -/
def instrumentFilter (direction : Direction) (stopPrice : ℚ)
    (instruments : List Instrument) : List Instrument :=
  instruments.filter (fun i =>
    i.side == direction &&
      (match direction with
       | .long => decide (i.financeLevel < stopPrice)
       | .short => decide (stopPrice < i.financeLevel)))

/-- C1 counterexample: the claimed take-profit formula with a
caller-supplied reward:risk ratio fails at ratio 3 (entry 1, stop 0, both
hypotheses of the claim satisfied): the code computes `1 + 2*(1-0) = 3`,
the claim demands `1 + 3*(1-0) = 4`. -/
theorem c1_counterexample :
    (1 : ℚ) ≠ 0 ∧ (0 : ℚ) < 3 ∧ takeProfit 1 0 ≠ 1 + 3 * ((1 : ℚ) - 0) := by
  refine ⟨by norm_num, by norm_num, ?_⟩
  norm_num [takeProfit]

/-- C1 (amended): the reward:risk ratio is the fixed constant 2 in the
code, not a caller input; for every entry ≠ stop the computed take-profit
equals `entry + 2*|entry - stop|` in the Long case (entry > stop) and
`entry - 2*|stop - entry|` in the Short case (entry < stop). -/
theorem c1_takeProfit_fixed_ratio (price stop : ℚ) (h : price ≠ stop) :
    (stop < price → takeProfit price stop = price + 2 * |price - stop|) ∧
    (price < stop → takeProfit price stop = price - 2 * |stop - price|) := by
  constructor
  · intro hlt
    rw [abs_of_pos (sub_pos.mpr hlt)]
    rfl
  · intro hlt
    rw [abs_of_pos (sub_pos.mpr hlt), takeProfit]
    ring

/-- C1 witness: the amended theorem at entry 100.50, stop 95. -/
theorem c1_takeProfit_fixed_ratio_witness :
    takeProfit (201 / 2) 95 = 201 / 2 + 2 * |(201 / 2 : ℚ) - 95| :=
  (c1_takeProfit_fixed_ratio (201 / 2) 95 (by norm_num)).1 (by norm_num)

/-- C2 counterexample: at entryPrice = stopPrice = 95 (risk 1000, finance
level 90, derivate price 10) the program does not fail and does produce a
sized result: `howMany = some (1000000/9583)`. -/
theorem c2_counterexample :
    (miniMain 95 1000 95 90 10).howMany = some (1000000 / 9583) := by
  norm_num [miniMain, howMany, miniStop]

/-- C2 (amended): the code performs no parameter validation and has no
error path: when entryPrice = stopPrice only the plain-stock division is
non-finite (`numberOfStocks = none`), while the take-profit and the sized
result are still produced; there is no reward:risk parameter to check
(the ratio is the constant 2). -/
theorem c2_no_invalid_parameters (price risk financeLevel derivatePrice : ℚ)
    (h : derivatePrice - miniStop price financeLevel ≠ 0) :
    (miniMain price risk price financeLevel derivatePrice).numberOfStocks = none ∧
    (miniMain price risk price financeLevel derivatePrice).takeProfit = price ∧
    (miniMain price risk price financeLevel derivatePrice).howMany =
      some (risk / (derivatePrice - miniStop price financeLevel)) := by
  refine ⟨?_, ?_, ?_⟩
  · simp [miniMain, numberOfStocks]
  · show price + 2 * (price - price) = price
    ring
  · show howMany risk derivatePrice price financeLevel = _
    rw [howMany, if_neg h]

/-- C2 witness: the amended theorem at entry = stop = 95, risk 1000,
finance level 90, derivate price 10. -/
theorem c2_no_invalid_parameters_witness :
    (miniMain 95 1000 95 90 10).numberOfStocks = none ∧
    (miniMain 95 1000 95 90 10).takeProfit = 95 :=
  ⟨(c2_no_invalid_parameters 95 1000 90 10 (by norm_num [miniStop])).1,
   (c2_no_invalid_parameters 95 1000 90 10 (by norm_num [miniStop])).2.1⟩

/-- C3 counterexample: with risk 1000, derivatePrice 0, stop 100, finance
level 0 the sizing denominator is negative (≤ 0), yet the code raises no
error and returns the finite negative unit count `-(50000/417)`. -/
theorem c3_counterexample :
    (0 : ℚ) - miniStop 100 0 ≤ 0 ∧
      howMany 1000 0 100 0 = some (-(50000 / 417)) := by
  constructor
  · norm_num [miniStop]
  · norm_num [howMany, miniStop]

/-- C3 (amended): the division is unguarded: whenever the denominator
`derivatePrice - miniStop` is nonzero — including when it is negative —
the unit count equals `risk / (derivatePrice - miniStop)`; no
DegenerateSizing error exists, and only a zero denominator yields a
non-finite value. -/
theorem c3_howMany_unguarded (risk derivatePrice stop financeLevel : ℚ)
    (h : derivatePrice - miniStop stop financeLevel ≠ 0) :
    howMany risk derivatePrice stop financeLevel =
      some (risk / (derivatePrice - miniStop stop financeLevel)) := by
  rw [howMany, if_neg h]

/-- C3 witness: the amended theorem at risk 1000, derivate price 10,
stop 95, finance level 90. -/
theorem c3_howMany_unguarded_witness :
    howMany 1000 10 95 90 = some (1000 / ((10 : ℚ) - miniStop 95 90)) :=
  c3_howMany_unguarded 1000 10 95 90 (by norm_num [miniStop])

/-- C4 counterexample: for a Short plan (entry 10, stop 20) with an
instrument whose finance level 30 passes the spec's Short filter
(30 > 20), the code computes the Long-convention value
`(10 - 30)/100 * 8.34 = -417/250 < 0`, not the claimed mirrored positive
`(30 - 10)/100 * 8.34 = 417/250`. -/
theorem c4_counterexample :
    (10 : ℚ) < 20 ∧ (20 : ℚ) < 30 ∧ paritet 10 30 = -(417 / 250) ∧
      ((30 : ℚ) - 10) / 100 * (834 / 100) = 417 / 250 := by
  refine ⟨by norm_num, by norm_num, ?_, by norm_num⟩
  norm_num [paritet]

/-- C4 (amended): the code computes leverage by the Long convention only,
with the multiplier hardcoded to 8.34:
`leverage = (entryPrice - financeLevel)/100 * 8.34` for every plan, and
this value is positive for every instrument passing the (spec-modelled)
Long filter, i.e. whenever financeLevel < stopPrice < entryPrice. -/
theorem c4_leverage_long (price stop financeLevel : ℚ)
    (h1 : financeLevel < stop) (h2 : stop < price) :
    paritet price financeLevel = (price - financeLevel) / 100 * (834 / 100) ∧
    0 < paritet price financeLevel := by
  refine ⟨rfl, ?_⟩
  rw [paritet]
  have hpos : 0 < price - financeLevel := by linarith
  exact mul_pos (by positivity) (by norm_num)

/-- C4 witness: the amended theorem at entry 100.50, stop 95, finance
level 90. -/
theorem c4_leverage_long_witness : 0 < paritet (201 / 2) 90 :=
  (c4_leverage_long (201 / 2) 95 90 (by norm_num) (by norm_num)).2

/-- C5 counterexample: on a Short plan (entry 10 < stop 20) with an
instrument whose finance level 30 passes the spec's Short filter
(30 > 20) and whose unit count is defined, the code's profit
`-666800/5417` is the Long-convention value, not the claimed Short
mirror `((financeLevel - takeProfit)/100 * 8.34) * units -
derivatePrice * units = -333200/5417`. -/
theorem c5_counterexample :
    (10 : ℚ) < 20 ∧ (20 : ℚ) < 30 ∧
    howMany 100 10 20 30 = some (50000 / 5417) ∧
    miniProfit 10 100 20 30 10 ≠
      some ((((30 : ℚ) - takeProfit 10 20) / 100 * (834 / 100)) * (50000 / 5417)
        - 10 * (50000 / 5417)) := by
  refine ⟨by norm_num, by norm_num, ?_, ?_⟩
  · norm_num [howMany, miniStop]
  · norm_num [miniProfit, howMany, miniStop, takeProfit]

/-- C5 (amended): the projected profit is computed by the Long convention
only, with the multiplier hardcoded to 8.34, for every plan including
Short: whenever the unit count is defined (finite), the profit equals
`((takeProfit - financeLevel)/100 * 8.34) * units - derivatePrice * units`
— the value of the units at the take-profit instrument price minus their
cost basis; no Short mirroring and no per-instrument multiplier occur. -/
theorem c5_miniProfit_formula (price risk stop financeLevel derivatePrice u : ℚ)
    (h : howMany risk derivatePrice stop financeLevel = some u) :
    miniProfit price risk stop financeLevel derivatePrice =
      some (((takeProfit price stop - financeLevel) / 100 * (834 / 100)) * u
        - derivatePrice * u) := by
  rw [miniProfit, h]
  rfl

/-- C5 witness: the profit formula at the spec's concrete scenario
(entry 100.50, risk 1000, stop 95, finance level 90, derivate price 10,
units 1000000/9583). -/
theorem c5_miniProfit_formula_witness :
    miniProfit (201 / 2) 1000 95 90 10 =
      some (((takeProfit (201 / 2) 95 - 90) / 100 * (834 / 100)) * (1000000 / 9583)
        - 10 * (1000000 / 9583)) :=
  c5_miniProfit_formula (201 / 2) 1000 95 90 10 (1000000 / 9583)
    (by norm_num [howMany, miniStop])

/-- C6 counterexample: under exact arithmetic the units affordable at the
spec's concrete scenario are `1000000/9583 = 104.3514...`, not the claimed
`104.36`. -/
theorem c6_counterexample :
    (miniMain (201 / 2) 1000 95 90 10).howMany = some (1000000 / 9583) ∧
      (1000000 : ℚ) / 9583 ≠ 10436 / 100 := by
  constructor
  · norm_num [miniMain, howMany, miniStop]
  · norm_num

/-- C6 (amended): at entry 100.50, stop 95, finance level 90, derivate
price 10, risk 1000 the program computes exactly: numberOfStocks 2000/11,
takeProfit 111.50, leverage 0.8757, miniStop 0.417, units affordable
1000000/9583 (≈ 104.35, not 104.36) and profit -8206900/9583 (≈ -856.40,
not -856.47). -/
theorem c6_exact_scenario :
    miniMain (201 / 2) 1000 95 90 10 =
      { numberOfStocks := some (2000 / 11)
        takeProfit := 223 / 2
        paritet := 8757 / 10000
        miniStop := 417 / 1000
        howMany := some (1000000 / 9583)
        miniProfit := some (-(8206900 / 9583)) } := by
  rw [miniMain, MiniOutput.mk.injEq]
  refine ⟨?_, ?_, ?_, ?_, ?_, ?_⟩
  · norm_num [numberOfStocks]
  · norm_num [takeProfit]
  · norm_num [paritet]
  · norm_num [miniStop]
  · norm_num [howMany, miniStop]
  · norm_num [miniProfit, howMany, miniStop, takeProfit]

/-- C7 (confirmed, modelled from the spec): every instrument surviving the
filter has its side equal to the plan direction, and its finance level
strictly below the stop for a Long plan, strictly above for a Short
plan. -/
theorem c7_filter_sound (direction : Direction) (stopPrice : ℚ)
    (instruments : List Instrument) (i : Instrument)
    (h : i ∈ instrumentFilter direction stopPrice instruments) :
    i.side = direction ∧
    (direction = Direction.long → i.financeLevel < stopPrice) ∧
    (direction = Direction.short → stopPrice < i.financeLevel) := by
  rw [instrumentFilter, List.mem_filter] at h
  obtain ⟨-, h2⟩ := h
  rw [Bool.and_eq_true, beq_iff_eq] at h2
  obtain ⟨hside, hlevel⟩ := h2
  refine ⟨hside, ?_, ?_⟩ <;> rintro rfl <;> simpa using hlevel

/-- C7 witness: a Long instrument with finance level 90 survives the
filter at stop 95, and the theorem yields 90 < 95. -/
theorem c7_filter_sound_witness :
    Instrument.mk "VON1" Direction.long 90 (834 / 100) 10 ∈
      instrumentFilter Direction.long 95
        [Instrument.mk "VON1" Direction.long 90 (834 / 100) 10] ∧
    (Instrument.mk "VON1" Direction.long 90 (834 / 100) 10).financeLevel < 95 := by
  have hmem : Instrument.mk "VON1" Direction.long 90 (834 / 100) 10 ∈
      instrumentFilter Direction.long 95
        [Instrument.mk "VON1" Direction.long 90 (834 / 100) 10] := by
    simp [instrumentFilter]
    norm_num
  exact ⟨hmem, (c7_filter_sound Direction.long 95 _ _ hmem).2.1 rfl⟩

/-- C8 (confirmed): the computation is a pure function of the five flag
values: two invocations with equal inputs produce equal outputs, field for
field and in the same print order. -/
theorem c8_deterministic (p r s f d p2 r2 s2 f2 d2 : ℚ)
    (hp : p = p2) (hr : r = r2) (hs : s = s2) (hf : f = f2) (hd : d = d2) :
    miniMain p r s f d = miniMain p2 r2 s2 f2 d2 := by
  subst hp hr hs hf hd
  rfl

/-- C8 witness: determinism at a concrete input. -/
theorem c8_deterministic_witness :
    miniMain 1 2 3 4 5 = miniMain 1 2 3 4 5 :=
  c8_deterministic 1 2 3 4 5 1 2 3 4 5 rfl rfl rfl rfl rfl

/-- C9 (confirmed): the program is total: for every input the three purely
algebraic quantities are always computed by their formulas, and a zero
denominator (entry = stop for the stock division, derivate price equal to
the computed instrument stop for the sizing division) yields the
non-finite marker `none` — never a rejection of the input. -/
theorem c9_total_unguarded (p r s f d : ℚ) :
    (miniMain p r s f d).takeProfit = p + 2 * (p - s) ∧
    (miniMain p r s f d).paritet = (p - f) / 100 * (834 / 100) ∧
    (miniMain p r s f d).miniStop = (s - f) / 100 * (834 / 100) ∧
    (p = s → (miniMain p r s f d).numberOfStocks = none) ∧
    (d = miniStop s f → (miniMain p r s f d).howMany = none ∧
      (miniMain p r s f d).miniProfit = none) := by
  refine ⟨rfl, rfl, rfl, ?_, ?_⟩
  · intro h
    simp [miniMain, numberOfStocks, h]
  · intro h
    constructor
    · simp [miniMain, howMany, h]
    · simp [miniMain, miniProfit, howMany, h]

/-- C9 witness: at price = stop = 5 and derivate price equal to the
computed instrument stop, both divisions are non-finite yet the program
still produces its output record. -/
theorem c9_total_unguarded_witness :
    (miniMain 5 7 5 0 (417 / 1000)).numberOfStocks = none ∧
    (miniMain 5 7 5 0 (417 / 1000)).howMany = none := by
  have h := c9_total_unguarded 5 7 5 0 (417 / 1000)
  exact ⟨h.2.2.2.1 rfl, (h.2.2.2.2 (by norm_num [miniStop])).1⟩

/-- C10 (confirmed): the program always computes the plain-stock position
size `risk / (price - stop)` (finite whenever price ≠ stop), alongside the
instrument-sizing figures. -/
theorem c10_numberOfStocks (p r s f d : ℚ) (h : p - s ≠ 0) :
    (miniMain p r s f d).numberOfStocks = some (r / (p - s)) := by
  simp [miniMain, numberOfStocks, h]

/-- C10 witness: the plain-stock size at entry 100.50, stop 95,
risk 1000. -/
theorem c10_numberOfStocks_witness :
    (miniMain (201 / 2) 1000 95 0 0).numberOfStocks =
      some (1000 / ((201 / 2 : ℚ) - 95)) :=
  c10_numberOfStocks (201 / 2) 1000 95 0 0 (by norm_num)

end Minifuture
